import Mathlib

/-!
Verification of the `xgb_dist` model orchestration layer
(`src/xgb_dist/model.py`, class `XGBDistribution`).

Shallow embedding choices:
* Python floats are modelled as `ℚ` (the orchestration layer copies and
  rearranges numbers; it performs no float arithmetic of its own, so exact
  rationals are a faithful carrier).
* Python attributes that may be absent before `fit` (`_distribution`,
  `_starting_params`, `_Booster`) are `Option` fields; reading an absent
  attribute is Python's `AttributeError`.
* The external collaborators (`get_distribution` from the distributions
  module, `xgb.train`, `xgb.XGBModel.predict`) are function parameters; a
  `Distribution` is a record of its abstract methods.
* Exceptions are modelled with `Except Err`.
-/

deriving instance DecidableEq for Except

namespace XgbDist

/-- Error taxonomy: the spec's four error kinds plus the Python-level
`AttributeError` (raised when an attribute that was never assigned is read)
and `IndexError` (raised by an out-of-range `[0]`). -/
inductive Err where
  | unknownDistributionError : Err
  | invalidInputError : Err
  | notFittedError : Err
  | engineError : Err
  | attributeError : Err
  | indexError : Err
deriving DecidableEq, Repr

/-- A trained ensemble handle returned by the external engine; fully
abstract to the orchestration layer. -/
structure Booster where
  id : ℕ
deriving DecidableEq, Repr

/-- The pieces of an `xgb.DMatrix` that the orchestration layer reads:
the number of rows (`X.shape[0]`) and the label vector
(`data.get_label()`). Feature values are opaque to this layer. -/
structure DMat where
  nRows : ℕ
  label : List ℚ
deriving DecidableEq, Repr

/-- Prediction options forwarded verbatim from `predict` to `predict_dist`
and on to the engine (`ntree_limit`, `validate_features`,
`iteration_range`). -/
structure PredictOpts where
  ntreeLimit : Option ℕ
  validateFeatures : Bool
  iterationRange : Option (ℕ × ℕ)
deriving DecidableEq, Repr

/-- A distribution family instance as consumed by `model.py`: the record of
methods the model calls on the object returned by `get_distribution`.
Their implementations live in the distributions module (outside the
orchestration source), so they are abstract fields here. -/
structure Distribution where
  params : List String
  startingParams : List ℚ → Except Err (List ℚ)
  predictFn : List ℚ → List (List ℚ)
  gradientAndHessian : List ℚ → List ℚ → Bool → List (List ℚ) × List (List ℚ)
  loss : List ℚ → List ℚ → String × ℚ

/-- The estimator state. `distribution`, `naturalGradient`, `kwargsParams`
(the dict returned by `get_xgb_params()`) and `nBoostRound`
(`get_num_boosting_rounds()`) exist from construction; the three
underscore fields are absent (`none`) until `fit` assigns them. -/
structure XGBDistribution where
  distribution : String
  naturalGradient : Bool
  kwargsParams : List (String × String)
  nBoostRound : ℕ
  fittedDistribution : Option Distribution
  fittedStartingParams : Option (List ℚ)
  fittedBooster : Option Booster

/-- Python default of the `distribution` constructor argument (`None`). -/
def defaultDistributionArg : Option String := none

/-- Python default of the `natural_gradient` constructor argument (`True`). -/
def defaultNaturalGradient : Bool := true

/-- `XGBDistribution.__init__`: `self.distribution = distribution or "normal"`.
Python's `or` replaces a falsy argument (absent/`None`, modelled `none`, or
the empty string) with `"normal"`. The fitted attributes do not exist yet. -/
def init (distribution : Option String) (naturalGradient : Bool)
    (kwargs : List (String × String)) (nRounds : ℕ) : XGBDistribution :=
  { distribution :=
      match distribution with
      | none => "normal"
      | some s => if s = "" then "normal" else s
    naturalGradient := naturalGradient
    kwargsParams := kwargs
    nBoostRound := nRounds
    fittedDistribution := none
    fittedStartingParams := none
    fittedBooster := none }

/-- `np.ones(shape=(n,))`. -/
def npOnes (n : ℕ) : List ℚ := List.replicate n 1

/-- numpy `.transpose()` of a rectangular array whose rows all have length
`ncols`: result row `i` collects entry `i` of every input row. -/
def transposeKn (m : List (List ℚ)) (ncols : ℕ) : List (List ℚ) :=
  (List.range ncols).map (fun i => m.map (fun row => row.getD i 0))

/-- `XGBDistribution._get_base_margins`:
`np.array([param * np.ones(shape=(n,)) for param in self._starting_params]).transpose().flatten()`.
Takes the stored starting parameters explicitly. -/
def getBaseMargins (startingParams : List ℚ) (nSamples : ℕ) : List ℚ :=
  (transposeKn (startingParams.map (fun p => (npOnes nSamples).map (fun o => p * o)))
    nSamples).flatten

/-- The objective closure built by `XGBDistribution._objective_func`: reads
`data.get_label()`, calls `self._distribution.gradient_and_hessian(y, params,
self.natural_gradient)` and returns both matrices flattened (row-major, as
numpy `.flatten()` does). Reading `self._distribution` before `fit` is an
`AttributeError`. -/
def objectiveFunc (self : XGBDistribution) (params : List ℚ) (data : DMat) :
    Except Err (List ℚ × List ℚ) :=
  match self.fittedDistribution with
  | none => .error .attributeError
  | some d =>
    let y := data.label
    let gh := d.gradientAndHessian y params self.naturalGradient
    .ok (gh.1.flatten, gh.2.flatten)

/-- The evaluation closure built by `XGBDistribution._evaluation_func`:
reads `data.get_label()` and returns `self._distribution.loss(y, params)`
(a named metric). It never consults `self.natural_gradient`. -/
def evaluationFunc (self : XGBDistribution) (params : List ℚ) (data : DMat) :
    Except Err (String × ℚ) :=
  match self.fittedDistribution with
  | none => .error .attributeError
  | some d => .ok (d.loss data.label params)

/-- The parameter set handed to `xgb.train`: `get_xgb_params()` (kept
abstract in `rest`) updated with the three keys `fit` sets:
`disable_default_eval_metric`, `num_class` (field `numClasses`) and
`base_score`. -/
structure XGBParams where
  rest : List (String × String)
  disableDefaultEvalMetric : Bool
  numClasses : ℕ
  baseScore : ℚ

/-- Everything `fit` passes to the `xgb.train` entry point. -/
structure TrainCall where
  params : XGBParams
  trainData : DMat
  trainLabel : List ℚ
  trainBaseMargin : List ℚ
  evals : Option (List ((DMat × List ℚ) × List ℚ))
  numBoostRound : ℕ
  earlyStoppingRounds : Option ℕ
  obj : List ℚ → DMat → Except Err (List ℚ × List ℚ)
  feval : List ℚ → DMat → Except Err (String × ℚ)
  verboseEval : Bool

/-- The `xgb.train` invocation `fit` makes once the distribution `d` and its
starting parameters `sp` are resolved; `self2` is the estimator state at the
call site (with `_distribution` and `_starting_params` assigned), over which
the objective/evaluation closures close. -/
def fitTrainCall (self2 : XGBDistribution) (d : Distribution) (sp : List ℚ)
    (X : DMat) (y : List ℚ) (evalSet : Option (List (DMat × List ℚ)))
    (esr : Option ℕ) (verbose : Bool) : TrainCall :=
  { params :=
      { rest := self2.kwargsParams
        disableDefaultEvalMetric := true
        numClasses := d.params.length
        baseScore := 0 }
    trainData := X
    trainLabel := y
    trainBaseMargin := getBaseMargins sp y.length
    evals := evalSet.map (List.map (fun ev => (ev, getBaseMargins sp ev.2.length)))
    numBoostRound := self2.nBoostRound
    earlyStoppingRounds := esr
    obj := objectiveFunc self2
    feval := evaluationFunc self2
    verboseEval := verbose }

/-- `XGBDistribution.fit`. Mirrors the statement order of the source:
assign `self._distribution`, assign `self._starting_params`, build margins
and call `xgb.train`; an exception at any step leaves the assignments made
so far in place (Python objects are mutated in place). Returns the
post-call estimator state and the outcome. -/
def fit (gd : String → Except Err Distribution)
    (train : TrainCall → Except Err Booster)
    (self : XGBDistribution) (X : DMat) (y : List ℚ)
    (evalSet : Option (List (DMat × List ℚ))) (esr : Option ℕ) (verbose : Bool) :
    XGBDistribution × Except Err Unit :=
  match gd self.distribution with
  | .error e => (self, .error e)
  | .ok d =>
    let self1 := { self with fittedDistribution := some d }
    match d.startingParams y with
    | .error e => (self1, .error e)
    | .ok sp =>
      let self2 := { self1 with fittedStartingParams := some sp }
      match train (fitTrainCall self2 d sp X y evalSet esr verbose) with
      | .error e => (self2, .error e)
      | .ok b => ({ self2 with fittedBooster := some b }, .ok ())

/-- The external `xgb.XGBModel.predict` (called as `super().predict`):
receives the stored booster handle, the data, `output_margin`, the base
margin vector and the forwarded options; returns a flat margin vector. -/
def SuperPredict : Type :=
  Option Booster → DMat → Bool → List ℚ → PredictOpts → Except Err (List ℚ)

/-- The body of `predict_dist` after `self._distribution` is available:
builds base margins from `self._starting_params` (an `AttributeError`
before `fit`), calls the engine with `output_margin=True`, and applies
`self._distribution.predict` to the raw output. -/
def predictDistFitted (superP : SuperPredict) (self : XGBDistribution)
    (d : Distribution) (X : DMat) (opts : PredictOpts) :
    XGBDistribution × Except Err (List (List ℚ)) :=
  match self.fittedStartingParams with
  | none => (self, .error .attributeError)
  | some s =>
    let baseMargin := getBaseMargins s X.nRows
    match superP self.fittedBooster X true baseMargin opts with
    | .error e => (self, .error e)
    | .ok raw => (self, .ok (d.predictFn raw))

/-- `XGBDistribution.predict_dist`: if `self._distribution` is absent it is
first resolved by name via `get_distribution` (which may itself raise);
then the fitted body runs. -/
def predictDist (gd : String → Except Err Distribution) (superP : SuperPredict)
    (self : XGBDistribution) (X : DMat) (opts : PredictOpts) :
    XGBDistribution × Except Err (List (List ℚ)) :=
  match self.fittedDistribution with
  | some d => predictDistFitted superP self d X opts
  | none =>
    match gd self.distribution with
    | .error e => (self, .error e)
    | .ok d => predictDistFitted superP { self with fittedDistribution := some d } d X opts

/-- `XGBDistribution.predict`: `self.predict_dist(...)[0]`, forwarding the
same `X` and options; `[0]` on an empty sequence is Python's `IndexError`. -/
def predict (gd : String → Except Err Distribution) (superP : SuperPredict)
    (self : XGBDistribution) (X : DMat) (opts : PredictOpts) :
    XGBDistribution × Except Err (List ℚ) :=
  let r := predictDist gd superP self X opts
  (r.1, r.2.bind (fun ps =>
    match ps with
    | [] => .error .indexError
    | p :: _ => .ok p))

/-- Modelled from the spec: the repository's `MarginPacking.pack` is not in
the provided source tree; per the spec it is the row-major (sample-major,
parameter-minor) flatten of an `(n, K)` matrix. -/
def pack {α : Type} (m : List (List α)) : List α := m.flatten

/-- Chops `count` rows of `width` entries off the front of a flat list. -/
def unpackAux {α : Type} : ℕ → List α → ℕ → List (List α)
  | 0, _, _ => []
  | count + 1, flat, width => flat.take width :: unpackAux count (flat.drop width) width

/-- Modelled from the spec: the repository's `MarginPacking.unpack` is not
in the provided source tree; per the spec it is the exact inverse of
`pack`, reshaping a flat sequence of length `n*K` into `n` rows of `K`. -/
def unpack {α : Type} (flat : List α) (K : ℕ) : List (List α) :=
  unpackAux (flat.length / K) flat K

/-! ### Helper lemmas -/

theorem flatten_length_of_rect {α : Type} (K : ℕ) :
    ∀ m : List (List α), (∀ r ∈ m, r.length = K) → m.flatten.length = m.length * K := by
  intro m
  induction m with
  | nil => intro _; simp
  | cons r t ih =>
    intro h
    have hr : r.length = K := h r (by simp)
    have ht : t.flatten.length = t.length * K := ih (fun r' hr' => h r' (by simp [hr']))
    simp [List.flatten_cons, hr, ht, Nat.succ_mul, Nat.add_comm]

theorem getD_replicate_of_lt {α : Type} (p d : α) :
    ∀ (n i : ℕ), i < n → (List.replicate n p).getD i d = p := by
  intro n
  induction n with
  | zero => intro i hi; exact absurd hi (Nat.not_lt_zero i)
  | succ n ih =>
    intro i hi
    cases i with
    | zero => simp [List.replicate_succ]
    | succ i =>
      simp only [List.replicate_succ, List.getD_cons_succ]
      exact ih i (Nat.lt_of_succ_lt_succ hi)

theorem map_ones_mul (p : ℚ) (n : ℕ) :
    (npOnes n).map (fun o => p * o) = List.replicate n p := by
  simp [npOnes, List.map_replicate]

theorem getBaseMargins_eq (sp : List ℚ) (n : ℕ) :
    getBaseMargins sp n = (List.replicate n sp).flatten := by
  unfold getBaseMargins transposeKn
  congr 1
  have hrow : ∀ i < n,
      (sp.map (fun p => (npOnes n).map (fun o => p * o))).map (fun row => row.getD i 0) = sp := by
    intro i hi
    rw [List.map_map]
    have : ∀ p ∈ sp, ((fun row => row.getD i (0 : ℚ)) ∘ fun p => (npOnes n).map (fun o => p * o)) p = p := by
      intro p _
      simp only [Function.comp]
      rw [map_ones_mul]
      exact getD_replicate_of_lt p 0 n i hi
    exact (List.map_congr_left this).trans (List.map_id sp)
  have : (List.range n).map
      (fun i => (sp.map (fun p => (npOnes n).map (fun o => p * o))).map (fun row => row.getD i 0)) =
      (List.range n).map (fun _ => sp) := by
    apply List.map_congr_left
    intro i hi
    exact hrow i (List.mem_range.mp hi)
  rw [this]
  simp [List.map_const']

theorem flatten_replicate_length {α : Type} (sp : List α) (n : ℕ) :
    ((List.replicate n sp).flatten).length = n * sp.length := by
  have h : ∀ r ∈ List.replicate n sp, r.length = sp.length := by
    intro r hr
    rw [List.eq_of_mem_replicate hr]
  rw [flatten_length_of_rect sp.length _ h, List.length_replicate]

theorem flatten_replicate_getD (sp : List ℚ) :
    ∀ (i n k : ℕ), i < n → k < sp.length →
      ((List.replicate n sp).flatten).getD (i * sp.length + k) 0 = sp.getD k 0 := by
  intro i
  induction i with
  | zero =>
    intro n k hn hk
    cases n with
    | zero => exact absurd hn (Nat.not_lt_zero 0)
    | succ n =>
      simp only [List.replicate_succ, List.flatten_cons, Nat.zero_mul, Nat.zero_add]
      exact List.getD_append _ _ _ _ hk
  | succ i ih =>
    intro n k hn hk
    cases n with
    | zero => exact absurd hn (Nat.not_lt_zero _)
    | succ n =>
      simp only [List.replicate_succ, List.flatten_cons]
      have harith : (i + 1) * sp.length + k = sp.length + (i * sp.length + k) := by ring
      rw [harith]
      have hle : sp.length ≤ sp.length + (i * sp.length + k) := Nat.le_add_right _ _
      rw [List.getD_append_right _ _ _ _ hle, Nat.add_sub_cancel_left]
      exact ih n k (Nat.lt_of_succ_lt_succ hn) hk

theorem pack_length_of_rect {α : Type} (K : ℕ) (m : List (List α))
    (h : ∀ r ∈ m, r.length = K) : (pack m).length = m.length * K :=
  flatten_length_of_rect K m h

theorem unpack_pack_aux {α : Type} (K : ℕ) :
    ∀ m : List (List α), (∀ r ∈ m, r.length = K) →
      unpackAux m.length (pack m) K = m := by
  intro m
  induction m with
  | nil => intro _; rfl
  | cons r t ih =>
    intro h
    have hr : r.length = K := h r (by simp)
    have hrec : ∀ r' ∈ t, r'.length = K := fun r' hr' => h r' (by simp [hr'])
    simp only [List.length_cons, pack, List.flatten_cons, unpackAux]
    have h1 : List.take K (r ++ t.flatten) = r := by
      rw [← hr]; exact List.take_left r t.flatten
    have h2 : List.drop K (r ++ t.flatten) = t.flatten := by
      rw [← hr]; exact List.drop_left r t.flatten
    rw [h1, h2]
    exact congrArg (r :: ·) (ih hrec)

/-! ### Concrete instances (used in witnesses and counterexamples) -/

/-- A concrete two-parameter distribution instance for instantiating
theorems: starting params fail on empty labels, gradients/Hessians have one
row per label, predictions expose two parameter vectors. -/
def toyDist : Distribution :=
  { params := ["loc", "scale"]
    startingParams := fun y => if y.length = 0 then .error .invalidInputError else .ok [1, 2]
    predictFn := fun raw => [raw, raw.reverse]
    gradientAndHessian := fun y _ _ => (y.map (fun _ => [1, 2]), y.map (fun _ => [3, 4]))
    loss := fun _ _ => ("NLL", 0) }

/-- A distribution whose starting-value heuristic always rejects the labels
(as e.g. LogNormal does on non-positive labels). -/
def badStartDist : Distribution :=
  { toyDist with startingParams := fun _ => .error .invalidInputError }

def gdToy : String → Except Err Distribution := fun _ => .ok toyDist

def gdBad : String → Except Err Distribution := fun _ => .ok badStartDist

def trainToy : TrainCall → Except Err Booster := fun _ => .ok ⟨1⟩

def superToy : SuperPredict := fun _ _ _ _ _ => .ok [5, 7]

def dmatToy : DMat := { nRows := 1, label := [3] }

def optsToy : PredictOpts :=
  { ntreeLimit := none, validateFeatures := false, iterationRange := none }

/-- A freshly constructed, never-fitted estimator. -/
def estNew : XGBDistribution :=
  { distribution := "normal"
    naturalGradient := true
    kwargsParams := []
    nBoostRound := 3
    fittedDistribution := none
    fittedStartingParams := none
    fittedBooster := none }

/-- `estNew` after the first two assignments of `fit` with `gdToy` on
labels `[3]`. -/
def estFitted : XGBDistribution :=
  { estNew with fittedDistribution := some toyDist, fittedStartingParams := some [1, 2] }

/-! ### Claim theorems -/

/-- Claim C1, counterexample: on a never-fitted estimator whose
distribution name does resolve, `predict_dist` and `predict` raise
`AttributeError` (the read of the absent `_starting_params` attribute),
not `NotFittedError` as the claim states. -/
theorem predict_unfitted_cex :
    (predictDist gdToy superToy estNew dmatToy optsToy).2 ≠
      Except.error Err.notFittedError ∧
    (predict gdToy superToy estNew dmatToy optsToy).2 ≠
      Except.error Err.notFittedError ∧
    (predictDist gdToy superToy estNew dmatToy optsToy).2 =
      Except.error Err.attributeError := by
  decide

/-- Claim C1 (amended): for every estimator on which `fit` has not been
called (no ensemble, Distribution or starting parameters stored), calling
`predict` or `predict_dist` raises — but with `AttributeError` (missing
`_starting_params`), not `NotFittedError` — whenever the distribution name
resolves; an unresolvable name propagates `get_distribution`'s error
instead. -/
theorem predict_unfitted_attributeError
    (gd : String → Except Err Distribution) (superP : SuperPredict)
    (self : XGBDistribution) (X : DMat) (opts : PredictOpts) (d : Distribution)
    (h1 : self.fittedDistribution = none)
    (h2 : self.fittedStartingParams = none)
    (_h3 : self.fittedBooster = none)
    (hgd : gd self.distribution = .ok d) :
    (predictDist gd superP self X opts).2 = .error .attributeError ∧
    (predict gd superP self X opts).2 = .error .attributeError := by
  have hpd : (predictDist gd superP self X opts).2 = .error .attributeError := by
    simp [predictDist, predictDistFitted, h1, h2, hgd]
  refine ⟨hpd, ?_⟩
  simp only [predict, hpd]
  rfl

/-- Witness for C1's amended theorem at a concrete unfitted estimator. -/
theorem predict_unfitted_attributeError_witness :
    (predict gdToy superToy estNew dmatToy optsToy).2 = .error .attributeError :=
  (predict_unfitted_attributeError gdToy superToy estNew dmatToy optsToy toyDist
    rfl rfl rfl rfl).2

/-- Claim C3: for every fitted model and input, `predict` returns exactly
the first element of the sequence `predict_dist` returns on the same `X`
and prediction options. -/
theorem predict_is_first_of_predictDist
    (gd : String → Except Err Distribution) (superP : SuperPredict)
    (self : XGBDistribution) (X : DMat) (opts : PredictOpts)
    (p : List ℚ) (rest : List (List ℚ))
    (h : (predictDist gd superP self X opts).2 = .ok (p :: rest)) :
    (predict gd superP self X opts).2 = .ok p := by
  simp only [predict, h]
  rfl

/-- Witness for C3 at a concrete fitted estimator: `predict_dist` yields
two parameter vectors and `predict` returns the first. -/
theorem predict_is_first_of_predictDist_witness :
    (predict gdToy superToy estFitted dmatToy optsToy).2 = .ok [5, 7] :=
  predict_is_first_of_predictDist gdToy superToy estFitted dmatToy optsToy
    [5, 7] [[7, 5]] (by decide)

/-- Claim C4: for every stored starting-parameter sequence `sp` and sample
count `n`, the base-margin vector has length `n * K` and its entry at
`i * K + k` is `sp[k]` — the same constant for every sample. -/
theorem getBaseMargins_spec (sp : List ℚ) (n : ℕ) :
    (getBaseMargins sp n).length = n * sp.length ∧
    ∀ i k, i < n → k < sp.length →
      (getBaseMargins sp n).getD (i * sp.length + k) 0 = sp.getD k 0 := by
  rw [getBaseMargins_eq]
  exact ⟨flatten_replicate_length sp n,
    fun i k hi hk => flatten_replicate_getD sp i n k hi hk⟩

/-- Witness for C4: sample `i = 2`, parameter `k = 1` of the margins built
from `[5, 7]` for three samples. -/
theorem getBaseMargins_spec_witness :
    (getBaseMargins [5, 7] 3).getD (2 * 2 + 1) 0 = (7 : ℚ) :=
  (getBaseMargins_spec [5, 7] 3).2 2 1 (by decide) (by decide)

/-- Claim C5: for every matrix of `n` rows of width `K > 0`,
`unpack (pack m) K = m` — packing and unpacking are exact inverses and no
value is transformed. -/
theorem unpack_pack_roundtrip {α : Type} (K : ℕ) (m : List (List α))
    (hK : 0 < K) (hrect : ∀ r ∈ m, r.length = K) :
    unpack (pack m) K = m := by
  unfold unpack
  rw [pack_length_of_rect K m hrect, Nat.mul_div_cancel _ hK]
  exact unpack_pack_aux K m hrect

/-- Witness for C5 on a concrete 3×2 matrix. -/
theorem unpack_pack_roundtrip_witness :
    unpack (pack [[(1 : ℚ), 2], [3, 4], [5, 6]]) 2 = [[(1 : ℚ), 2], [3, 4], [5, 6]] :=
  unpack_pack_roundtrip 2 [[(1 : ℚ), 2], [3, 4], [5, 6]] (by decide) (by decide)

/-- Claim C7: the evaluation callback's result is independent of the
`natural_gradient` flag — two estimators identical except for that flag
report the same loss metric on every predictions/labels input. -/
theorem evaluationFunc_ignores_naturalGradient
    (self : XGBDistribution) (b : Bool) (params : List ℚ) (data : DMat) :
    evaluationFunc { self with naturalGradient := b } params data =
      evaluationFunc self params data := rfl

/-- Claim C10: constructing with the `distribution` argument omitted,
`None`, or the falsy empty string stores the name `"normal"` (so `""`
selects the Normal family rather than raising `UnknownDistributionError`
later), and `natural_gradient` defaults to `True`. -/
theorem init_distribution_default :
    (∀ ng kw nr, (init defaultDistributionArg ng kw nr).distribution = "normal") ∧
    (∀ ng kw nr, (init none ng kw nr).distribution = "normal") ∧
    (∀ ng kw nr, (init (some "") ng kw nr).distribution = "normal") ∧
    defaultNaturalGradient = true := by
  refine ⟨fun ng kw nr => rfl, fun ng kw nr => rfl, fun ng kw nr => ?_, rfl⟩
  simp [init]

/-- Helper: once the distribution and starting parameters resolve, `fit`'s
outcome is exactly the outcome of `train` on the single `TrainCall` built
by `fitTrainCall` over the updated estimator state. -/
theorem fit_calls_train
    (gd : String → Except Err Distribution) (train : TrainCall → Except Err Booster)
    (self : XGBDistribution) (X : DMat) (y : List ℚ)
    (es : Option (List (DMat × List ℚ))) (esr : Option ℕ) (v : Bool)
    (d : Distribution) (sp : List ℚ)
    (hd : gd self.distribution = .ok d)
    (hsp : d.startingParams y = .ok sp) :
    (fit gd train self X y es esr v).2 =
      (train (fitTrainCall
        { self with fittedDistribution := some d, fittedStartingParams := some sp }
        d sp X y es esr v)).map (fun _ => ()) := by
  unfold fit
  rw [hd]
  simp only
  rw [hsp]
  simp only
  cases train (fitTrainCall
      { self with fittedDistribution := some d, fittedStartingParams := some sp }
      d sp X y es esr v) <;> rfl

/-- Claim C2, counterexample: with a distribution whose starting-value
heuristic rejects the labels, `fit` raises `InvalidInputError` yet the
estimator is not left fully unfitted — the resolved `Distribution` was
already stored before the failure. -/
theorem fit_partial_state_cex :
    (fit gdBad trainToy estNew dmatToy [3] none none true).2 =
      Except.error Err.invalidInputError ∧
    ((fit gdBad trainToy estNew dmatToy [3] none none true).1.fittedDistribution).isSome
      = true := by
  decide

/-- Claim C2 (amended): `fit` either completes fully and stores the
consistent (ensemble, distribution, starting-params) triple, or raises; on
failure the booster is never stored, but assignments made before the
failing step persist: a `get_distribution` failure leaves the estimator
unchanged, a starting-params failure leaves the resolved distribution
stored, and a training failure leaves both the distribution and the
starting parameters stored. -/
theorem fit_state_cases
    (gd : String → Except Err Distribution) (train : TrainCall → Except Err Booster)
    (self : XGBDistribution) (X : DMat) (y : List ℚ)
    (es : Option (List (DMat × List ℚ))) (esr : Option ℕ) (v : Bool) :
    (∀ e, gd self.distribution = .error e →
      fit gd train self X y es esr v = (self, .error e)) ∧
    (∀ d e, gd self.distribution = .ok d → d.startingParams y = .error e →
      fit gd train self X y es esr v =
        ({ self with fittedDistribution := some d }, .error e)) ∧
    (∀ d sp e, gd self.distribution = .ok d → d.startingParams y = .ok sp →
      train (fitTrainCall
          { self with fittedDistribution := some d, fittedStartingParams := some sp }
          d sp X y es esr v) = .error e →
      fit gd train self X y es esr v =
        ({ self with fittedDistribution := some d, fittedStartingParams := some sp },
          .error e)) ∧
    (∀ d sp b, gd self.distribution = .ok d → d.startingParams y = .ok sp →
      train (fitTrainCall
          { self with fittedDistribution := some d, fittedStartingParams := some sp }
          d sp X y es esr v) = .ok b →
      fit gd train self X y es esr v =
        ({ self with
            fittedDistribution := some d
            fittedStartingParams := some sp
            fittedBooster := some b }, .ok ())) := by
  refine ⟨?_, ?_, ?_, ?_⟩
  · intro e he
    unfold fit
    rw [he]
  · intro d e hd he
    unfold fit
    rw [hd]
    simp only
    rw [he]
  · intro d sp e hd hsp htr
    unfold fit
    rw [hd]
    simp only
    rw [hsp]
    simp only
    rw [htr]
  · intro d sp b hd hsp htr
    unfold fit
    rw [hd]
    simp only
    rw [hsp]
    simp only
    rw [htr]

/-- Witness for C2's amended theorem: a fully successful `fit` stores the
triple built from the resolved distribution, its starting parameters, and
the booster the engine returned. -/
theorem fit_state_cases_witness :
    fit gdToy trainToy estNew dmatToy [3] none none true =
      ({ estNew with
          fittedDistribution := some toyDist
          fittedStartingParams := some [1, 2]
          fittedBooster := some ⟨1⟩ }, .ok ()) :=
  (fit_state_cases gdToy trainToy estNew dmatToy [3] none none true).2.2.2
    toyDist [1, 2] ⟨1⟩ rfl rfl rfl

/-- Claim C6: the parameter set `fit` hands to the external training entry
point has `disable_default_eval_metric = true`, `num_class = K` (the
resolved distribution's parameter count) and `base_score = 0.0`, and the
objective and evaluation callbacks are registered with that call; moreover
`fit`'s outcome is exactly the engine's outcome on that call. -/
theorem fit_engine_config
    (gd : String → Except Err Distribution) (train : TrainCall → Except Err Booster)
    (self : XGBDistribution) (X : DMat) (y : List ℚ)
    (es : Option (List (DMat × List ℚ))) (esr : Option ℕ) (v : Bool)
    (d : Distribution) (sp : List ℚ) (self2 : XGBDistribution) (tc : TrainCall)
    (hd : gd self.distribution = .ok d)
    (hsp : d.startingParams y = .ok sp)
    (hself2 : self2 =
      { self with fittedDistribution := some d, fittedStartingParams := some sp })
    (htc : tc = fitTrainCall self2 d sp X y es esr v) :
    (fit gd train self X y es esr v).2 = (train tc).map (fun _ => ()) ∧
    tc.params.disableDefaultEvalMetric = true ∧
    tc.params.numClasses = d.params.length ∧
    tc.params.baseScore = 0 ∧
    tc.obj = objectiveFunc self2 ∧
    tc.feval = evaluationFunc self2 := by
  subst hself2
  subst htc
  exact ⟨fit_calls_train gd train self X y es esr v d sp hd hsp, rfl, rfl, rfl, rfl, rfl⟩

/-- Witness for C6 at a concrete `fit`: the call built for `toyDist` sets
`num_class` to its parameter count, 2. -/
theorem fit_engine_config_witness :
    (fitTrainCall estFitted toyDist [1, 2] dmatToy [3] none none true).params.numClasses
      = 2 :=
  (fit_engine_config gdToy trainToy estNew dmatToy [3] none none true toyDist [1, 2]
    estFitted (fitTrainCall estFitted toyDist [1, 2] dmatToy [3] none none true)
    rfl rfl rfl rfl).2.2.1

/-- Claim C8: the objective callback invokes the distribution's
`gradient_and_hessian` on the partition's labels and the engine's current
predictions with the estimator's natural-gradient flag, and returns the
gradient and Hessian matrices flattened to the engine's 1-D layout of
length `n * K`. -/
theorem objectiveFunc_spec
    (self : XGBDistribution) (d : Distribution) (data : DMat) (params : List ℚ)
    (K : ℕ) (gm hm : List (List ℚ))
    (hd : self.fittedDistribution = some d)
    (hgh : d.gradientAndHessian data.label params self.naturalGradient = (gm, hm))
    (hg : gm.length = data.label.length ∧ ∀ r ∈ gm, r.length = K)
    (hh : hm.length = data.label.length ∧ ∀ r ∈ hm, r.length = K) :
    objectiveFunc self params data = .ok (gm.flatten, hm.flatten) ∧
    gm.flatten.length = data.label.length * K ∧
    hm.flatten.length = data.label.length * K := by
  refine ⟨?_, ?_, ?_⟩
  · simp [objectiveFunc, hd, hgh]
  · rw [flatten_length_of_rect K gm hg.2, hg.1]
  · rw [flatten_length_of_rect K hm hh.2, hh.1]

/-- Witness for C8 at a concrete fitted estimator and batch of one label:
both flattened outputs have length `1 * 2`. -/
theorem objectiveFunc_spec_witness :
    objectiveFunc estFitted [5, 7] dmatToy = .ok ([1, 2], [3, 4]) :=
  (objectiveFunc_spec estFitted toyDist dmatToy [5, 7] 2 [[1, 2]] [[3, 4]]
    rfl rfl ⟨rfl, by decide⟩ ⟨rfl, by decide⟩).1

/-- Claim C9: when `eval_set` is present, `fit` builds a base-margin
vector for every evaluation pair from the same stored starting parameters,
of length `len(y_eval) * K` each; when `eval_set` is absent, no evaluation
base margins are built. `fit`'s outcome is the engine's outcome on the
assembled call. -/
theorem fit_eval_base_margins
    (gd : String → Except Err Distribution) (train : TrainCall → Except Err Booster)
    (self : XGBDistribution) (X : DMat) (y : List ℚ)
    (es : Option (List (DMat × List ℚ))) (esr : Option ℕ) (v : Bool)
    (d : Distribution) (sp : List ℚ) (self2 : XGBDistribution) (tc : TrainCall)
    (hd : gd self.distribution = .ok d)
    (hsp : d.startingParams y = .ok sp)
    (hK : sp.length = d.params.length)
    (hself2 : self2 =
      { self with fittedDistribution := some d, fittedStartingParams := some sp })
    (htc : tc = fitTrainCall self2 d sp X y es esr v) :
    (fit gd train self X y es esr v).2 = (train tc).map (fun _ => ()) ∧
    (∀ l, es = some l →
      tc.evals = some (l.map (fun ev => (ev, getBaseMargins sp ev.2.length))) ∧
      ∀ ev ∈ l, (getBaseMargins sp ev.2.length).length = ev.2.length * d.params.length) ∧
    (es = none → tc.evals = none) := by
  subst hself2
  subst htc
  refine ⟨fit_calls_train gd train self X y es esr v d sp hd hsp, ?_, ?_⟩
  · intro l hl
    subst hl
    refine ⟨rfl, ?_⟩
    intro ev _
    rw [getBaseMargins_eq, flatten_replicate_length, hK]
  · intro hn
    subst hn
    rfl

/-- Witness for C9 with one held-out evaluation pair of two labels: its
base margin is the starting parameters broadcast over both samples. -/
theorem fit_eval_base_margins_witness :
    (fitTrainCall estFitted toyDist [1, 2] dmatToy [3] (some [(dmatToy, [4, 5])])
        none true).evals =
      some [((dmatToy, [4, 5]), getBaseMargins [1, 2] 2)] :=
  ((fit_eval_base_margins gdToy trainToy estNew dmatToy [3] (some [(dmatToy, [4, 5])])
      none true toyDist [1, 2] estFitted
      (fitTrainCall estFitted toyDist [1, 2] dmatToy [3] (some [(dmatToy, [4, 5])])
        none true)
      rfl rfl rfl rfl rfl).2.1 [(dmatToy, [4, 5])] rfl).1

end XgbDist
